import Mathlib

/-!
# Ripes main window: session coordination

A shallow embedding of `src/mainwindow.cpp` (namespace `Ripes`).  The member
functions of `MainWindow` become functions on an explicit window state.  Modal
dialogs are synchronous in the source (`exec()` returns before the caller
resumes), so each dialog object the code constructs is passed in as an argument
describing what that object reports and what the user does with it.  Effects on
the outside world (dialogs shown, files written, the shutdown signal, calls into
the editor) are recorded, in order, in the `trace` field.
-/

namespace Ripes

/-! ## Data model -/

/-- Modelled from the spec: the `TabIndex` enumeration of `mainwindow.h` (the header
is not among the sources).  The spec fixes the ordered set of panels (Editor,
Processor, Cache, Memory, IO); the constructor adds the tab-bar entries in that
order and forwards the tab-bar index to `tabChanged` unchanged.  An enumeration
value is its underlying integer. -/
abbrev TabIndex := Int

/-- Modelled from the spec: the enumerator of the Editor panel, first in the order. -/
def EditTabID : TabIndex := 0
/-- Modelled from the spec: the enumerator of the Processor panel. -/
def ProcessorTabID : TabIndex := 1
/-- Modelled from the spec: the enumerator of the Cache panel. -/
def CacheTabID : TabIndex := 2
/-- Modelled from the spec: the enumerator of the Memory panel. -/
def MemoryTabID : TabIndex := 3
/-- Modelled from the spec: the enumerator of the IO panel. -/
def IOTabID : TabIndex := 4

/-- The five identifiers the constructor registers in `m_tabWidgets`. -/
def registeredTabIDs : List TabIndex :=
  [EditTabID, ProcessorTabID, CacheTabID, MemoryTabID, IOTabID]

/-- A `QByteArray`: a sequence of bytes. -/
abbrev QByteArray := List (Fin 256)

/-- What a file on disk holds after one of the two write helpers ran on it. -/
inductive FileData where
  | text (data : String)
  | binary (data : QByteArray)
deriving DecidableEq, Repr

/-- Observable actions of the window on its collaborators, in program order. -/
inductive Effect where
  /-- A `QMessageBox::exec()` (the Close or the New Program prompt). -/
  | messageBoxExec
  /-- A `SaveDialog::exec()`. -/
  | saveDialogExec
  /-- A file was opened write-only and `data` was written to it. -/
  | fileWritten (path : String) (data : FileData)
  /-- The call `EditTab::newProgram()`. -/
  | newProgram
  /-- The call `RipesSettings::setValue(RIPES_GLOBALSIGNAL_QUIT, 0)`. -/
  | quitSignal
deriving DecidableEq, Repr

/-- The answers of a message box whose buttons were set to
`QMessageBox::Yes | QMessageBox::No | QMessageBox::Cancel`. -/
inductive StandardButton where
  | Yes
  | No
  | Cancel
deriving DecidableEq, Repr

/-- The result code `QDialog::Rejected` of `QDialog::DialogCode`. -/
def QDialog.Rejected : Int := 0
/-- The result code `QDialog::Accepted` of `QDialog::DialogCode`. -/
def QDialog.Accepted : Int := 1

/-- Modelled from the spec: the `SaveDialog` class (`savedialog.h` is not among the
sources).  The spec gives its interface: it presents modally and returns
`accepted`, `assemblyPath?` and `binaryPath?`.  An object reports two paths when
asked; executing it returns the result code of the user's interaction and
leaves the object reporting the paths of that interaction. -/
structure SaveDialog where
  /-- The current answer of `assemblyPath()`. -/
  assemblyPath : String
  /-- The current answer of `binaryPath()`. -/
  binaryPath : String
  /-- The result code `exec()` returns if the dialog is executed. -/
  execResult : Int
  /-- The answer of `assemblyPath()` after `exec()`. -/
  execAssemblyPath : String
  /-- The answer of `binaryPath()` after `exec()`. -/
  execBinaryPath : String
deriving DecidableEq, Repr

/-- The call `diag.exec()`: the result code and the dialog object afterwards. -/
def SaveDialog.exec (diag : SaveDialog) : Int × SaveDialog :=
  (diag.execResult,
   { diag with assemblyPath := diag.execAssemblyPath, binaryPath := diag.execBinaryPath })

/-- The part of the editor panel the window reads: `isEditorEnabled()`,
`getAssemblyText()` and `getBinaryData()` (a null pointer is `none`). -/
structure EditTab where
  editorEnabled : Bool
  assemblyText : String
  binaryData : Option QByteArray
deriving DecidableEq, Repr

def EditTab.isEditorEnabled (e : EditTab) : Bool := e.editorEnabled
def EditTab.getAssemblyText (e : EditTab) : String := e.assemblyText
def EditTab.getBinaryData (e : EditTab) : Option QByteArray := e.binaryData

/-- Modelled from the spec: `EditTab::newProgram` (`edittab.cpp` is not among the
sources).  The spec says of the New Program workflow: "clear editor content". -/
def EditTab.newProgram (e : EditTab) : EditTab :=
  { e with assemblyText := "" }

/-- One entry of `m_tabWidgets`: the state of the toolbar and of the tab the two
stored pointers refer to. -/
structure TabWidgets where
  /-- The argument of the last `toolbar->setVisible`. -/
  toolbarVisible : Bool
  /-- The argument of the last `tab->tabVisibilityChanged`, if there was any. -/
  tabVisible : Option Bool
deriving DecidableEq, Repr

/-- A `QCloseEvent`: its accept flag. -/
structure QCloseEvent where
  accepted : Bool
deriving DecidableEq, Repr

def QCloseEvent.ignore (_ : QCloseEvent) : QCloseEvent := { accepted := false }
def QCloseEvent.accept (_ : QCloseEvent) : QCloseEvent := { accepted := true }

/-- The window together with the world it acts on. -/
structure MainWindow where
  /-- The map `m_tabWidgets`; `none` for a key that was never inserted. -/
  m_tabWidgets : TabIndex → Option TabWidgets
  m_currentTabID : TabIndex
  m_hasSavedFile : Bool
  /-- The editor panel `m_tabWidgets.at(EditTabID).tab`. -/
  editTab : EditTab
  /-- Enabled flags of the Save and Save As menu actions. -/
  saveActionEnabled : Bool
  saveAsActionEnabled : Bool
  /-- Contents of the files written so far, by path. -/
  files : String → Option FileData
  /-- Whether `QFile::open(QIODevice::WriteOnly)` succeeds on a path. -/
  canOpen : String → Bool
  /-- The effects so far, oldest first. -/
  trace : List Effect

/-! ## Tab switching -/

/-- The statement `m_tabWidgets.at(id).toolbar->setVisible(v)`; `std::map::at`
throws on a missing key, which is `none`. -/
def MainWindow.toolbarSetVisible (id : TabIndex) (v : Bool) (w : MainWindow) :
    Option MainWindow :=
  match w.m_tabWidgets id with
  | none => none
  | some tw =>
    some { w with m_tabWidgets := fun k =>
      if k = id then some { tw with toolbarVisible := v } else w.m_tabWidgets k }

/-- The statement `m_tabWidgets.at(id).tab->tabVisibilityChanged(v)`. -/
def MainWindow.tabVisibilityChanged (id : TabIndex) (v : Bool) (w : MainWindow) :
    Option MainWindow :=
  match w.m_tabWidgets id with
  | none => none
  | some tw =>
    some { w with m_tabWidgets := fun k =>
      if k = id then some { tw with tabVisible := some v } else w.m_tabWidgets k }

/-- The slot `MainWindow::tabChanged(int index)`. -/
def MainWindow.tabChanged (index : Int) (w : MainWindow) : Option MainWindow := do
  let w ← w.toolbarSetVisible w.m_currentTabID false
  let w ← w.tabVisibilityChanged w.m_currentTabID false
  let w := { w with m_currentTabID := index }
  let w ← w.toolbarSetVisible w.m_currentTabID true
  let w ← w.tabVisibilityChanged w.m_currentTabID true
  pure w

/-- Modelled from the spec: the initial value of `m_hasSavedFile`, which is given in
`mainwindow.h` (not among the sources); the initial document state of the spec is
`Clean+NoLocation`. -/
def initialHasSavedFile : Bool := false

/-- The window state built by the constructor up to, and including, the
assignment `m_currentTabID = ProcessorTabID`: five toolbars, each hidden
by `setVisible(false)`, registered under the five identifiers.  The editor
panel and the file system are those the window is created with. -/
def MainWindow.setup (editTab : EditTab) (files : String → Option FileData)
    (canOpen : String → Bool) : MainWindow :=
  { m_tabWidgets := fun k =>
      if k ∈ registeredTabIDs then some { toolbarVisible := false, tabVisible := none }
      else none
    m_currentTabID := ProcessorTabID
    m_hasSavedFile := initialHasSavedFile
    editTab := editTab
    saveActionEnabled := true
    saveAsActionEnabled := true
    files := files
    canOpen := canOpen
    trace := [] }

/-- Modelled from the spec: `FancyTabBar::setActiveIndex` (`fancytabbar.cpp` is not
among the sources) raises `activeIndexChanged(index)`, the tab-switch event, which
the constructor connected to `MainWindow::tabChanged`. -/
def MainWindow.setActiveIndex (index : Int) (w : MainWindow) : Option MainWindow :=
  w.tabChanged index

/-- The constructor `MainWindow::MainWindow`, ending with
`m_ui->tabbar->setActiveIndex(m_currentTabID)`. -/
def MainWindow.construct (editTab : EditTab) (files : String → Option FileData)
    (canOpen : String → Bool) : Option MainWindow :=
  let w := MainWindow.setup editTab files canOpen
  w.setActiveIndex w.m_currentTabID

/-- A sequence of `tabChanged` events, delivered in order. -/
def MainWindow.tabChangedSeq : List Int → MainWindow → Option MainWindow
  | [], w => some w
  | index :: rest, w =>
    match w.tabChanged index with
    | none => none
    | some w1 => MainWindow.tabChangedSeq rest w1

/-! ## Editor state signal -/

/-- The three slots connected to `EditTab::editorStateChanged(bool enabled)`, in
connection order: the two from `setupMenus` (Save and Save As enabling), then
the constructor's lambda `[=] { this->m_hasSavedFile = false; }`. -/
def MainWindow.editorStateChanged (enabled : Bool) (w : MainWindow) : MainWindow :=
  let w := { w with saveActionEnabled := enabled }
  let w := { w with saveAsActionEnabled := enabled }
  { w with m_hasSavedFile := false }

/-! ## Saving -/

/-- The helper `writeTextFile(QFile& file, const QString& data)`; the `QFile` is its
path.  Nothing happens when the file does not open. -/
def MainWindow.writeTextFile (file : String) (data : String) (w : MainWindow) : MainWindow :=
  if w.canOpen file then
    { w with
      files := fun p => if p = file then some (FileData.text data) else w.files p
      trace := w.trace ++ [Effect.fileWritten file (FileData.text data)] }
  else w

/-- The helper `writeBinaryFile(QFile& file, const QByteArray& data)`. -/
def MainWindow.writeBinaryFile (file : String) (data : QByteArray) (w : MainWindow) :
    MainWindow :=
  if w.canOpen file then
    { w with
      files := fun p => if p = file then some (FileData.binary data) else w.files p
      trace := w.trace ++ [Effect.fileWritten file (FileData.binary data)] }
  else w

/-- Lines 331-335 of `saveFilesTriggered`: the dialog is executed only when
`m_hasSavedFile` is false, and a non-zero result sets the flag.  Returns the
window and the dialog object as the write section then sees it. -/
def MainWindow.saveFilesPrompt (diag : SaveDialog) (w : MainWindow) :
    MainWindow × SaveDialog :=
  if !w.m_hasSavedFile then
    let r := diag.exec
    let w := { w with trace := w.trace ++ [Effect.saveDialogExec] }
    if r.1 ≠ 0 then ({ w with m_hasSavedFile := true }, r.2) else (w, r.2)
  else (w, diag)

/-- Lines 337-347 of `saveFilesTriggered`: the two independent writes. -/
def MainWindow.saveFilesWrite (diag : SaveDialog) (w : MainWindow) : MainWindow :=
  let w :=
    if !diag.assemblyPath.isEmpty then
      w.writeTextFile diag.assemblyPath w.editTab.getAssemblyText
    else w
  if !diag.binaryPath.isEmpty then
    match w.editTab.getBinaryData with
    | some program => w.writeBinaryFile diag.binaryPath program
    | none => w
  else w

/-- The slot `MainWindow::saveFilesTriggered()`; `diag` is the `SaveDialog` object
it constructs. -/
def MainWindow.saveFilesTriggered (diag : SaveDialog) (w : MainWindow) : MainWindow :=
  let r := w.saveFilesPrompt diag
  r.1.saveFilesWrite r.2

/-- The slot `MainWindow::saveFilesAsTriggered()`; `diag` is its own dialog object
and `inner` the one the nested `saveFilesTriggered()` constructs. -/
def MainWindow.saveFilesAsTriggered (diag inner : SaveDialog) (w : MainWindow) : MainWindow :=
  let r := diag.exec
  let w := { w with trace := w.trace ++ [Effect.saveDialogExec] }
  if r.1 = QDialog.Rejected then w
  else
    let w := { w with m_hasSavedFile := true }
    w.saveFilesTriggered inner

/-! ## New program and close -/

/-- The slot `MainWindow::newProgramTriggered()`; `answer` is what the message box
returns if it is executed, `diag` the dialog of a nested `saveFilesTriggered()`. -/
def MainWindow.newProgramTriggered (answer : StandardButton) (diag : SaveDialog)
    (w : MainWindow) : MainWindow :=
  let finish (w : MainWindow) : MainWindow :=
    let w := { w with m_hasSavedFile := false }
    { w with editTab := w.editTab.newProgram, trace := w.trace ++ [Effect.newProgram] }
  if !w.editTab.getAssemblyText.isEmpty || w.m_hasSavedFile then
    let w := { w with trace := w.trace ++ [Effect.messageBoxExec] }
    match answer with
    | StandardButton.Yes =>
      let w := w.saveFilesTriggered diag
      if !w.m_hasSavedFile then w else finish w
    | StandardButton.No => finish w
    | StandardButton.Cancel => w
  else finish w

/-- The base implementation `QMainWindow::closeEvent`, which accepts the event
(Qt: "The default implementation accepts the close event"). -/
def QMainWindow.closeEvent (event : QCloseEvent) : QCloseEvent := event.accept

/-- The handler `MainWindow::closeEvent(QCloseEvent* event)`: the window and the
event after the call. -/
def MainWindow.closeEvent (answer : StandardButton) (diag : SaveDialog)
    (event : QCloseEvent) (w : MainWindow) : MainWindow × QCloseEvent :=
  let finish (w : MainWindow) : MainWindow × QCloseEvent :=
    ({ w with trace := w.trace ++ [Effect.quitSignal] }, QMainWindow.closeEvent event)
  if w.editTab.isEditorEnabled && !w.editTab.getAssemblyText.isEmpty then
    let w := { w with trace := w.trace ++ [Effect.messageBoxExec] }
    if answer = StandardButton.Cancel then (w, event.ignore)
    else if answer = StandardButton.Yes then finish (w.saveFilesTriggered diag)
    else finish w
  else finish w

/-! ## Observations on the trace -/

/-- How many times a save dialog was presented. -/
def MainWindow.saveDialogsShown (w : MainWindow) : Nat :=
  w.trace.count Effect.saveDialogExec

/-- How many times a message box was presented. -/
def MainWindow.promptsShown (w : MainWindow) : Nat :=
  w.trace.count Effect.messageBoxExec

/-- How many times `EditTab::newProgram()` was called. -/
def MainWindow.newProgramCalls (w : MainWindow) : Nat :=
  w.trace.count Effect.newProgram

/-- How many times the shutdown notification was emitted. -/
def MainWindow.quitSignals (w : MainWindow) : Nat :=
  w.trace.count Effect.quitSignal

/-- Whether an effect is a file write. -/
def Effect.isWrite : Effect → Bool
  | Effect.fileWritten _ _ => true
  | _ => false

/-- The file writes performed so far, oldest first. -/
def MainWindow.writes (w : MainWindow) : List Effect :=
  w.trace.filter Effect.isWrite

/-- Whether the toolbar registered under `id` is visible. -/
def MainWindow.toolbarVisible (w : MainWindow) (id : TabIndex) : Bool :=
  match w.m_tabWidgets id with
  | some tw => tw.toolbarVisible
  | none => false

/-- Exactly the five identifiers have an entry in `m_tabWidgets`. -/
def MainWindow.Registered (w : MainWindow) : Prop :=
  ∀ k, (w.m_tabWidgets k).isSome = true ↔ k ∈ registeredTabIDs

/-- The effects a `saveFilesTriggered()` call entered with dialog object `diag`
appends for its text artifact. -/
def MainWindow.textWrites (diag : SaveDialog) (w : MainWindow) : List Effect :=
  if !diag.assemblyPath.isEmpty && w.canOpen diag.assemblyPath then
    [Effect.fileWritten diag.assemblyPath (FileData.text w.editTab.getAssemblyText)]
  else []

/-- The effects the write section appends for its binary artifact. -/
def MainWindow.binaryWrites (diag : SaveDialog) (w : MainWindow) : List Effect :=
  match w.editTab.getBinaryData with
  | some program =>
    if !diag.binaryPath.isEmpty && w.canOpen diag.binaryPath then
      [Effect.fileWritten diag.binaryPath (FileData.binary program)]
    else []
  | none => []

/-- The effects a run of saves appends when each of them is entered with
`m_hasSavedFile` true: per dialog object, in order, its text write and then its
binary write, and nothing else. -/
def MainWindow.silentWrites (w : MainWindow) : List SaveDialog → List Effect
  | [] => []
  | d :: rest => w.textWrites d ++ w.binaryWrites d ++ w.silentWrites rest

/-! ## Sample data -/

/-- An editor holding a one-line program and its assembled bytes. -/
def sampleEditTab : EditTab :=
  { editorEnabled := true, assemblyText := "nop", binaryData := some [0x13, 0, 0, 0] }

/-- An empty directory in which every path can be opened for writing. -/
def sampleFiles : String → Option FileData := fun _ => none
def sampleCanOpen : String → Bool := fun _ => true

/-- The window right after construction around `sampleEditTab`. -/
def sampleWindow : MainWindow :=
  (MainWindow.construct sampleEditTab sampleFiles sampleCanOpen).getD
    (MainWindow.setup sampleEditTab sampleFiles sampleCanOpen)

/-- A save dialog the user accepts after entering both paths. -/
def acceptedDialog : SaveDialog :=
  { assemblyPath := "", binaryPath := "", execResult := QDialog.Accepted,
    execAssemblyPath := "out.s", execBinaryPath := "out.bin" }

/-- A save dialog the user accepts with both paths left empty. -/
def acceptedEmptyDialog : SaveDialog :=
  { assemblyPath := "", binaryPath := "", execResult := QDialog.Accepted,
    execAssemblyPath := "", execBinaryPath := "" }

/-- A save dialog the user rejects after typing an assembly path. -/
def rejectedDialog : SaveDialog :=
  { assemblyPath := "", binaryPath := "", execResult := QDialog.Rejected,
    execAssemblyPath := "out.s", execBinaryPath := "" }

/-- A save dialog the user rejects without entering anything. -/
def rejectedEmptyDialog : SaveDialog :=
  { assemblyPath := "", binaryPath := "", execResult := QDialog.Rejected,
    execAssemblyPath := "", execBinaryPath := "" }

/-- A dialog object that is constructed but never executed, reporting a stored
assembly path. -/
def silentDialog : SaveDialog :=
  { assemblyPath := "out.s", binaryPath := "", execResult := QDialog.Rejected,
    execAssemblyPath := "", execBinaryPath := "" }

/-! ## Tab switching: one visible panel -/

theorem tabChanged_step (index : Int) (w : MainWindow)
    (hc : (w.m_tabWidgets w.m_currentTabID).isSome = true)
    (hi : (w.m_tabWidgets index).isSome = true) :
    ∃ w1, w.tabChanged index = some w1 ∧ w1.m_currentTabID = index ∧
      (∀ k, (w1.m_tabWidgets k).isSome = (w.m_tabWidgets k).isSome) ∧
      (∀ k, w1.toolbarVisible k =
        if k = index then true else if k = w.m_currentTabID then false
        else w.toolbarVisible k) ∧
      w1.m_hasSavedFile = w.m_hasSavedFile ∧ w1.editTab = w.editTab ∧
      w1.files = w.files ∧ w1.canOpen = w.canOpen ∧ w1.trace = w.trace := by
  obtain ⟨tc, htc⟩ := Option.isSome_iff_exists.mp hc
  obtain ⟨ti, hti⟩ := Option.isSome_iff_exists.mp hi
  by_cases hci : index = w.m_currentTabID
  · subst hci
    simp [MainWindow.tabChanged, MainWindow.toolbarSetVisible, MainWindow.tabVisibilityChanged,
      MainWindow.toolbarVisible, htc, bind, Option.bind]
    refine ⟨?_, ?_⟩ <;> intro k <;> by_cases hk : k = w.m_currentTabID <;> simp [hk, htc]
  · have hic : ¬ w.m_currentTabID = index := fun h => hci h.symm
    simp [MainWindow.tabChanged, MainWindow.toolbarSetVisible, MainWindow.tabVisibilityChanged,
      MainWindow.toolbarVisible, htc, hti, hci, bind, Option.bind]
    refine ⟨?_, ?_⟩ <;> intro k <;> by_cases hk : k = index <;>
      by_cases hk2 : k = w.m_currentTabID <;> simp [hk, hk2, htc, hti, hci, hic]

theorem setup_registered (editTab : EditTab) (files : String → Option FileData)
    (canOpen : String → Bool) : (MainWindow.setup editTab files canOpen).Registered := by
  intro k
  by_cases hk : k ∈ registeredTabIDs <;> simp [MainWindow.setup, hk]

theorem getLast?_getD_cons (a : Int) (r : List Int) (x y : Int) :
    (a :: r).getLast?.getD x = (a :: r).getLast?.getD y := by
  cases h : (a :: r).getLast? with
  | none => simp at h
  | some v => rfl

theorem tabChangedSeq_inv (indices : List Int) :
    ∀ (w : MainWindow), w.Registered → w.m_currentTabID ∈ registeredTabIDs →
      (∀ k, w.toolbarVisible k = true ↔ k = w.m_currentTabID) →
      (∀ i ∈ indices, i ∈ registeredTabIDs) →
      ∃ w1, w.tabChangedSeq indices = some w1 ∧ w1.Registered ∧
        (∀ k, w1.toolbarVisible k = true ↔ k = w1.m_currentTabID) ∧
        w1.m_currentTabID = indices.getLast?.getD w.m_currentTabID ∧
        w1.m_hasSavedFile = w.m_hasSavedFile ∧ w1.editTab = w.editTab ∧
        w1.files = w.files ∧ w1.canOpen = w.canOpen ∧ w1.trace = w.trace := by
  induction indices with
  | nil =>
    intro w hr _ hv _
    exact ⟨w, rfl, hr, hv, rfl, rfl, rfl, rfl, rfl, rfl⟩
  | cons index rest ih =>
    intro w hr hc hv hall
    have hi : index ∈ registeredTabIDs := hall index (List.mem_cons_self _ _)
    obtain ⟨w1, hstep, hcur, hsome, hvis, h1, h2, h3, h4, h5⟩ :=
      tabChanged_step index w ((hr _).mpr hc) ((hr _).mpr hi)
    have hr1 : w1.Registered := fun k => by rw [hsome k]; exact hr k
    have hv1 : ∀ k, w1.toolbarVisible k = true ↔ k = w1.m_currentTabID := by
      intro k
      rw [hvis k, hcur]
      by_cases hk : k = index
      · simp [hk]
      · by_cases hk2 : k = w.m_currentTabID
        · simp [hk, hk2]
        · simp [hk, hk2, hv k]
    obtain ⟨w2, hseq, hr2, hv2, hlast, g1, g2, g3, g4, g5⟩ :=
      ih w1 hr1 (hcur ▸ hi) hv1 (fun i hi => hall i (List.mem_cons_of_mem _ hi))
    refine ⟨w2, ?_, hr2, hv2, ?_, g1.trans h1, g2.trans h2, g3.trans h3, g4.trans h4,
      g5.trans h5⟩
    · simp [MainWindow.tabChangedSeq, hstep, hseq]
    · rw [hlast, hcur]
      cases rest with
      | nil => simp
      | cons a r =>
        rw [List.getLast?_cons_cons]
        exact getLast?_getD_cons a r _ _

/-! ## Saving: helper lemmas -/

/-- What the dialog phase of `saveFilesTriggered` does, field by field. -/
theorem saveFilesPrompt_spec (diag : SaveDialog) (w : MainWindow) :
    (w.saveFilesPrompt diag).1.trace =
        w.trace ++ (if w.m_hasSavedFile then [] else [Effect.saveDialogExec]) ∧
      (w.saveFilesPrompt diag).1.m_hasSavedFile =
        (w.m_hasSavedFile || decide (diag.execResult ≠ 0)) ∧
      (w.saveFilesPrompt diag).2 = (if w.m_hasSavedFile then diag else diag.exec.2) ∧
      (w.saveFilesPrompt diag).1.editTab = w.editTab ∧
      (w.saveFilesPrompt diag).1.files = w.files ∧
      (w.saveFilesPrompt diag).1.canOpen = w.canOpen ∧
      (w.saveFilesPrompt diag).1.m_tabWidgets = w.m_tabWidgets ∧
      (w.saveFilesPrompt diag).1.m_currentTabID = w.m_currentTabID := by
  unfold MainWindow.saveFilesPrompt
  cases hf : w.m_hasSavedFile <;> by_cases hr : diag.execResult = 0 <;>
    simp [hf, hr, SaveDialog.exec]

/-- What the write section of `saveFilesTriggered` does, field by field. -/
theorem saveFilesWrite_spec (diag : SaveDialog) (w : MainWindow) :
    (w.saveFilesWrite diag).trace = w.trace ++ w.textWrites diag ++ w.binaryWrites diag ∧
      (w.saveFilesWrite diag).m_hasSavedFile = w.m_hasSavedFile ∧
      (w.saveFilesWrite diag).editTab = w.editTab ∧
      (w.saveFilesWrite diag).canOpen = w.canOpen ∧
      (w.saveFilesWrite diag).m_tabWidgets = w.m_tabWidgets ∧
      (w.saveFilesWrite diag).m_currentTabID = w.m_currentTabID ∧
      (∀ path, path ≠ diag.assemblyPath → path ≠ diag.binaryPath →
        (w.saveFilesWrite diag).files path = w.files path) := by
  unfold MainWindow.saveFilesWrite MainWindow.textWrites MainWindow.binaryWrites
    MainWindow.writeTextFile MainWindow.writeBinaryFile EditTab.getAssemblyText
    EditTab.getBinaryData
  cases ha : diag.assemblyPath.isEmpty <;> cases hb : diag.binaryPath.isEmpty <;>
    cases hoa : w.canOpen diag.assemblyPath <;> cases hob : w.canOpen diag.binaryPath <;>
    cases hd : w.editTab.binaryData <;> simp [ha, hb, hoa, hob, hd] <;>
    intro path h1 h2 <;> simp [h1, h2]

/-- The file contents the write section leaves behind. -/
theorem saveFilesWrite_files (diag : SaveDialog) (w : MainWindow) :
    (∀ program, w.editTab.binaryData = some program → diag.binaryPath.isEmpty = false →
        w.canOpen diag.binaryPath = true →
        (w.saveFilesWrite diag).files diag.binaryPath = some (FileData.binary program)) ∧
      (diag.assemblyPath.isEmpty = false → w.canOpen diag.assemblyPath = true →
        (diag.assemblyPath ≠ diag.binaryPath ∨ w.binaryWrites diag = []) →
        (w.saveFilesWrite diag).files diag.assemblyPath =
          some (FileData.text w.editTab.assemblyText)) ∧
      (w.textWrites diag = [] → w.binaryWrites diag = [] →
        (w.saveFilesWrite diag).files = w.files) := by
  unfold MainWindow.saveFilesWrite MainWindow.textWrites MainWindow.binaryWrites
    MainWindow.writeTextFile MainWindow.writeBinaryFile EditTab.getAssemblyText
    EditTab.getBinaryData
  cases ha : diag.assemblyPath.isEmpty <;> cases hb : diag.binaryPath.isEmpty <;>
    cases hoa : w.canOpen diag.assemblyPath <;> cases hob : w.canOpen diag.binaryPath <;>
    cases hd : w.editTab.binaryData <;> simp [ha, hb, hoa, hob, hd]

/-- The whole of `saveFilesTriggered`, field by field; `shown` is the dialog object
as the write section sees it. -/
theorem saveFilesTriggered_spec (diag : SaveDialog) (w : MainWindow) :
    (w.saveFilesTriggered diag).trace =
        w.trace ++ (if w.m_hasSavedFile then [] else [Effect.saveDialogExec]) ++
          w.textWrites (w.saveFilesPrompt diag).2 ++
          w.binaryWrites (w.saveFilesPrompt diag).2 ∧
      (w.saveFilesTriggered diag).m_hasSavedFile =
        (w.m_hasSavedFile || decide (diag.execResult ≠ 0)) ∧
      (w.saveFilesTriggered diag).editTab = w.editTab ∧
      (w.saveFilesTriggered diag).canOpen = w.canOpen ∧
      (w.saveFilesTriggered diag).m_tabWidgets = w.m_tabWidgets ∧
      (w.saveFilesTriggered diag).m_currentTabID = w.m_currentTabID := by
  obtain ⟨p1, p2, _, p4, _, p6, p7, p8⟩ := saveFilesPrompt_spec diag w
  obtain ⟨q1, q2, q3, q4, q5, q6, _⟩ :=
    saveFilesWrite_spec (w.saveFilesPrompt diag).2 (w.saveFilesPrompt diag).1
  have ht : (w.saveFilesPrompt diag).1.textWrites (w.saveFilesPrompt diag).2 =
      w.textWrites (w.saveFilesPrompt diag).2 := by
    simp only [MainWindow.textWrites, p4, p6]
  have hb : (w.saveFilesPrompt diag).1.binaryWrites (w.saveFilesPrompt diag).2 =
      w.binaryWrites (w.saveFilesPrompt diag).2 := by
    simp only [MainWindow.binaryWrites, p4, p6]
  unfold MainWindow.saveFilesTriggered
  refine ⟨?_, ?_, ?_, ?_, ?_, ?_⟩
  · rw [q1, ht, hb, p1]
  · rw [q2, p2]
  · rw [q3, p4]
  · rw [q4, p6]
  · rw [q5, p7]
  · rw [q6, p8]

/-- Counting one kind of effect in the trace after `saveFilesTriggered`: only save
dialogs and file writes are added. -/
theorem saveFilesTriggered_counts (diag : SaveDialog) (w : MainWindow) :
    (w.saveFilesTriggered diag).saveDialogsShown =
        w.saveDialogsShown + (if w.m_hasSavedFile then 0 else 1) ∧
      (w.saveFilesTriggered diag).promptsShown = w.promptsShown ∧
      (w.saveFilesTriggered diag).newProgramCalls = w.newProgramCalls ∧
      (w.saveFilesTriggered diag).quitSignals = w.quitSignals := by
  obtain ⟨h, _⟩ := saveFilesTriggered_spec diag w
  have ht : ∀ d : SaveDialog, ∀ e : Effect, e.isWrite = false →
      (w.textWrites d).count e = 0 := by
    intro d e he
    unfold MainWindow.textWrites
    split
    · rw [List.count_singleton]
      split
      · rename_i heq
        have := beq_iff_eq.mp heq
        subst this
        simp [Effect.isWrite] at he
      · rfl
    · rfl
  have hb : ∀ d : SaveDialog, ∀ e : Effect, e.isWrite = false →
      (w.binaryWrites d).count e = 0 := by
    intro d e he
    unfold MainWindow.binaryWrites
    split
    · split
      · rw [List.count_singleton]
        split
        · rename_i heq
          have := beq_iff_eq.mp heq
          subst this
          simp [Effect.isWrite] at he
        · rfl
      · rfl
    · rfl
  simp only [MainWindow.saveDialogsShown, MainWindow.promptsShown, MainWindow.newProgramCalls,
    MainWindow.quitSignals, h, List.count_append, ht _ Effect.saveDialogExec rfl,
    ht _ Effect.messageBoxExec rfl, ht _ Effect.newProgram rfl, ht _ Effect.quitSignal rfl,
    hb _ Effect.saveDialogExec rfl, hb _ Effect.messageBoxExec rfl, hb _ Effect.newProgram rfl,
    hb _ Effect.quitSignal rfl]
  cases w.m_hasSavedFile <;> simp

/-- The file writes after `saveFilesTriggered` are the earlier ones followed by
those of the write section. -/
theorem saveFilesTriggered_writes (diag : SaveDialog) (w : MainWindow) :
    (w.saveFilesTriggered diag).writes =
      w.writes ++ w.textWrites (w.saveFilesPrompt diag).2 ++
        w.binaryWrites (w.saveFilesPrompt diag).2 := by
  obtain ⟨h, _⟩ := saveFilesTriggered_spec diag w
  have ht : ∀ d : SaveDialog, (w.textWrites d).filter Effect.isWrite = w.textWrites d := by
    intro d
    unfold MainWindow.textWrites
    split <;> simp [Effect.isWrite]
  have hb : ∀ d : SaveDialog, (w.binaryWrites d).filter Effect.isWrite = w.binaryWrites d := by
    intro d
    unfold MainWindow.binaryWrites
    split
    · split <;> simp [Effect.isWrite]
    · rfl
  simp only [MainWindow.writes, h, List.filter_append, ht, hb]
  cases w.m_hasSavedFile <;> simp [Effect.isWrite]

/-- With the toolbar of the current tab as the only visible one, the visible
registered toolbars are the one-element list of the current tab. -/
theorem visible_filter_eq (w : MainWindow) (hc : w.m_currentTabID ∈ registeredTabIDs)
    (hv : ∀ k, w.toolbarVisible k = true ↔ k = w.m_currentTabID) :
    registeredTabIDs.filter w.toolbarVisible = [w.m_currentTabID] := by
  have hfun : registeredTabIDs.filter w.toolbarVisible =
      registeredTabIDs.filter (fun k => decide (k = w.m_currentTabID)) := by
    apply List.filter_congr
    intro k _
    by_cases hk : k = w.m_currentTabID
    · simp [hk, (hv w.m_currentTabID).mpr rfl]
    · have : w.toolbarVisible k ≠ true := fun h => hk ((hv k).mp h)
      simp [hk, this]
  rw [hfun]
  simp only [registeredTabIDs, EditTabID, ProcessorTabID, CacheTabID, MemoryTabID, IOTabID,
    List.mem_cons, List.mem_singleton, List.not_mem_nil, or_false] at hc
  rcases hc with h | h | h | h | h <;> rw [h] <;> decide

/-! ## The claims -/

/-- C1: in every state reached from the constructed window (the constructor
including its `setActiveIndex(ProcessorTabID)` activation) by `tabChanged` events
whose index is one of the five registered identifiers, every event is handled
without a failed lookup, the toolbar of `m_currentTabID` is visible and no other
toolbar is, so exactly one panel is visible, and `m_currentTabID` is the last index
passed (`ProcessorTabID` when no event was delivered). -/
theorem tabChanged_exactly_one_panel_visible (editTab : EditTab)
    (files : String → Option FileData) (canOpen : String → Bool) (indices : List Int)
    (h : ∀ i ∈ indices, i ∈ registeredTabIDs) :
    ∃ w0 w, MainWindow.construct editTab files canOpen = some w0 ∧
      w0.tabChangedSeq indices = some w ∧
      w.m_currentTabID ∈ registeredTabIDs ∧
      (∀ k, w.toolbarVisible k = true ↔ k = w.m_currentTabID) ∧
      registeredTabIDs.filter w.toolbarVisible = [w.m_currentTabID] ∧
      w.m_currentTabID = indices.getLast?.getD ProcessorTabID := by
  have hreg := setup_registered editTab files canOpen
  have hp : ProcessorTabID ∈ registeredTabIDs := by decide
  have hv0 : ∀ k, (MainWindow.setup editTab files canOpen).toolbarVisible k = false := by
    intro k
    by_cases hk : k ∈ registeredTabIDs <;> simp [MainWindow.toolbarVisible, MainWindow.setup, hk]
  obtain ⟨w0, hstep, hcur, hsome, hvis, _⟩ :=
    tabChanged_step ProcessorTabID (MainWindow.setup editTab files canOpen)
      ((hreg _).mpr hp) ((hreg _).mpr hp)
  have hr0 : w0.Registered := fun k => by rw [hsome k]; exact hreg k
  have hvis0 : ∀ k, w0.toolbarVisible k = true ↔ k = w0.m_currentTabID := by
    intro k
    rw [hvis k, hcur]
    by_cases hk : k = ProcessorTabID
    · simp [hk]
    · have hk2 : ¬ k = (MainWindow.setup editTab files canOpen).m_currentTabID := hk
      simp [hk, hk2, hv0 k]
  obtain ⟨w, hseq, hr, hv, hlast, _⟩ := tabChangedSeq_inv indices w0 hr0 (hcur ▸ hp) hvis0 h
  have hmem : w.m_currentTabID ∈ registeredTabIDs := by
    rw [hlast, hcur]
    cases hl : indices.getLast? with
    | none => exact hp
    | some v => exact h v (List.mem_of_getLast?_eq_some hl)
  refine ⟨w0, w, hstep, hseq, hmem, hv, visible_filter_eq w hmem hv, ?_⟩
  rw [hlast, hcur]

/-- A run of three tab switches (Editor, I/O, Cache) from the constructed sample window. -/
theorem tabChanged_exactly_one_panel_visible_witness :
    (∀ i ∈ [EditTabID, IOTabID, CacheTabID], i ∈ registeredTabIDs) ∧
    ∃ w0 w, MainWindow.construct sampleEditTab sampleFiles sampleCanOpen = some w0 ∧
      w0.tabChangedSeq [EditTabID, IOTabID, CacheTabID] = some w ∧
      w.m_currentTabID ∈ registeredTabIDs ∧
      (∀ k, w.toolbarVisible k = true ↔ k = w.m_currentTabID) ∧
      registeredTabIDs.filter w.toolbarVisible = [w.m_currentTabID] ∧
      w.m_currentTabID = [EditTabID, IOTabID, CacheTabID].getLast?.getD ProcessorTabID :=
  ⟨by decide, tabChanged_exactly_one_panel_visible sampleEditTab sampleFiles sampleCanOpen
    [EditTabID, IOTabID, CacheTabID] (by decide)⟩

/-- A save entered with a persisted location shows no dialog, keeps the flag and
is the write section alone. -/
theorem saveFilesTriggered_silent (diag : SaveDialog) (w : MainWindow)
    (h : w.m_hasSavedFile = true) :
    w.saveFilesTriggered diag = w.saveFilesWrite diag ∧
      (w.saveFilesTriggered diag).m_hasSavedFile = true ∧
      (w.saveFilesTriggered diag).saveDialogsShown = w.saveDialogsShown := by
  refine ⟨?_, ?_, ?_⟩
  · simp [MainWindow.saveFilesTriggered, MainWindow.saveFilesPrompt, h]
  · rw [(saveFilesTriggered_spec diag w).2.1, h]; rfl
  · rw [(saveFilesTriggered_counts diag w).1, h]; rfl

/-- Any number of further saves after the flag is set: no dialog, flag kept, and the
trace grows by exactly the writes of each save in turn. -/
theorem saveFilesTriggered_silent_seq (later : List SaveDialog) :
    ∀ w : MainWindow, w.m_hasSavedFile = true →
      (later.foldl (fun s d => s.saveFilesTriggered d) w).m_hasSavedFile = true ∧
      (later.foldl (fun s d => s.saveFilesTriggered d) w).saveDialogsShown =
        w.saveDialogsShown ∧
      (later.foldl (fun s d => s.saveFilesTriggered d) w).trace =
        w.trace ++ w.silentWrites later := by
  induction later with
  | nil => intro w h; exact ⟨h, rfl, by simp [MainWindow.silentWrites]⟩
  | cons d rest ih =>
    intro w h
    obtain ⟨_, h1, h2⟩ := saveFilesTriggered_silent d w h
    obtain ⟨t1, _, t3, t4, _, _⟩ := saveFilesTriggered_spec d w
    obtain ⟨g1, g2, g3⟩ := ih (w.saveFilesTriggered d) h1
    have hd : (w.saveFilesPrompt d).2 = d := by
      simp [MainWindow.saveFilesPrompt, h]
    have hsw : ∀ l : List SaveDialog,
        (w.saveFilesTriggered d).silentWrites l = w.silentWrites l := by
      intro l
      induction l with
      | nil => rfl
      | cons a r ihr =>
        simp only [MainWindow.silentWrites, MainWindow.textWrites, MainWindow.binaryWrites,
          t3, t4, ihr]
    refine ⟨g1, g2.trans h2, ?_⟩
    rw [List.foldl_cons, g3, t1, hd, hsw, h]
    simp [MainWindow.silentWrites, List.append_assoc]

/-- C5: `saveFilesTriggered` executes the save dialog exactly when `m_hasSavedFile`
is false on entry (one dialog more than before in that case, none otherwise); if
the dialog is then accepted (a non-zero result, `QDialog::Accepted` in particular)
the flag is true afterwards; and once the flag is true, every further
`saveFilesTriggered` in a row shows no dialog, leaves the flag true and performs
its writes: the trace grows by exactly the text write and the binary write of each
save, taken from the paths its never-executed dialog object reports, and the files
at those paths hold the editor text and binary data. -/
theorem save_prompts_iff_no_persisted_location (diag : SaveDialog) (w : MainWindow)
    (later : List SaveDialog) :
    ((w.saveFilesTriggered diag).saveDialogsShown =
        w.saveDialogsShown + (if w.m_hasSavedFile = false then 1 else 0)) ∧
    (w.m_hasSavedFile = false → diag.execResult ≠ 0 →
        (w.saveFilesTriggered diag).m_hasSavedFile = true) ∧
    ((w.saveFilesTriggered diag).m_hasSavedFile = true →
        (later.foldl (fun s d => s.saveFilesTriggered d)
            (w.saveFilesTriggered diag)).saveDialogsShown =
          (w.saveFilesTriggered diag).saveDialogsShown ∧
        (later.foldl (fun s d => s.saveFilesTriggered d)
            (w.saveFilesTriggered diag)).m_hasSavedFile = true ∧
        (later.foldl (fun s d => s.saveFilesTriggered d)
            (w.saveFilesTriggered diag)).trace =
          (w.saveFilesTriggered diag).trace ++ w.silentWrites later ∧
        ∀ next : SaveDialog,
          (w.saveFilesTriggered diag).saveFilesTriggered next =
            (w.saveFilesTriggered diag).saveFilesWrite next ∧
          ((w.saveFilesTriggered diag).saveFilesTriggered next).trace =
            (w.saveFilesTriggered diag).trace ++
              (if next.assemblyPath.isEmpty = false ∧ w.canOpen next.assemblyPath = true
                then [Effect.fileWritten next.assemblyPath
                  (FileData.text w.editTab.assemblyText)]
                else []) ++
              (match w.editTab.binaryData with
                | some program =>
                  if next.binaryPath.isEmpty = false ∧ w.canOpen next.binaryPath = true
                  then [Effect.fileWritten next.binaryPath (FileData.binary program)]
                  else []
                | none => []) ∧
          (∀ program, w.editTab.binaryData = some program →
            next.binaryPath.isEmpty = false → w.canOpen next.binaryPath = true →
            ((w.saveFilesTriggered diag).saveFilesTriggered next).files next.binaryPath =
              some (FileData.binary program)) ∧
          (next.assemblyPath.isEmpty = false → w.canOpen next.assemblyPath = true →
            next.assemblyPath ≠ next.binaryPath →
            ((w.saveFilesTriggered diag).saveFilesTriggered next).files next.assemblyPath =
              some (FileData.text w.editTab.assemblyText))) := by
  refine ⟨?_, ?_, ?_⟩
  · rw [(saveFilesTriggered_counts diag w).1]
    cases w.m_hasSavedFile <;> rfl
  · intro h hr
    rw [(saveFilesTriggered_spec diag w).2.1, h]
    simp [hr]
  · intro h
    obtain ⟨_, _, t3, t4, _, _⟩ := saveFilesTriggered_spec diag w
    obtain ⟨g1, g2, g3⟩ := saveFilesTriggered_silent_seq later (w.saveFilesTriggered diag) h
    have hsw : ∀ l : List SaveDialog,
        (w.saveFilesTriggered diag).silentWrites l = w.silentWrites l := by
      intro l
      induction l with
      | nil => rfl
      | cons a r ihr =>
        simp only [MainWindow.silentWrites, MainWindow.textWrites, MainWindow.binaryWrites,
          t3, t4, ihr]
    refine ⟨g2, g1, by rw [g3, hsw], fun next => ?_⟩
    have he := (saveFilesTriggered_silent next _ h).1
    obtain ⟨q1, _⟩ := saveFilesWrite_spec next (w.saveFilesTriggered diag)
    obtain ⟨f1, f2, _⟩ := saveFilesWrite_files next (w.saveFilesTriggered diag)
    rw [t3, t4] at f1 f2
    refine ⟨he, ?_, ?_, ?_⟩
    · rw [he, q1]
      unfold MainWindow.textWrites MainWindow.binaryWrites EditTab.getAssemblyText
        EditTab.getBinaryData
      rw [t3, t4]
      cases w.editTab.binaryData <;> cases next.assemblyPath.isEmpty <;>
        cases next.binaryPath.isEmpty <;> cases w.canOpen next.assemblyPath <;>
        cases w.canOpen next.binaryPath <;> simp
    · intro program hp hb ho
      rw [he]
      exact f1 program hp hb ho
    · intro ha ho hne
      rw [he]
      exact f2 ha ho (Or.inl hne)

/-- A first save with an accepted dialog from the sample window, then two more whose
dialog objects report the stored path `out.s`: one dialog in all, and each later
save writes the editor text to `out.s` again. -/
theorem save_prompts_iff_no_persisted_location_witness :
    (sampleWindow.saveFilesTriggered acceptedDialog).saveDialogsShown = 1 ∧
    (sampleWindow.saveFilesTriggered acceptedDialog).m_hasSavedFile = true ∧
    ([silentDialog, silentDialog].foldl (fun s d => s.saveFilesTriggered d)
        (sampleWindow.saveFilesTriggered acceptedDialog)).saveDialogsShown = 1 ∧
    ([silentDialog, silentDialog].foldl (fun s d => s.saveFilesTriggered d)
        (sampleWindow.saveFilesTriggered acceptedDialog)).trace =
      [Effect.saveDialogExec,
       Effect.fileWritten "out.s" (FileData.text "nop"),
       Effect.fileWritten "out.bin" (FileData.binary [0x13, 0, 0, 0]),
       Effect.fileWritten "out.s" (FileData.text "nop"),
       Effect.fileWritten "out.s" (FileData.text "nop")] ∧
    ((sampleWindow.saveFilesTriggered acceptedDialog).saveFilesTriggered silentDialog).files
      "out.s" = some (FileData.text "nop") :=
  have h := save_prompts_iff_no_persisted_location acceptedDialog sampleWindow
    [silentDialog, silentDialog]
  have hs := h.2.1 (by decide) (by decide)
  ⟨h.1, hs, (h.2.2 hs).1.trans h.1, (h.2.2 hs).2.2.1.trans (by decide),
   ((h.2.2 hs).2.2.2 silentDialog).2.2.2 (by decide) (by decide) (by decide)⟩

/-- C6: evaluation at the failing input.  From the sample window (no persisted
location) the user rejects the save dialog after typing the path `out.s`: the
dialog was shown once, the flag stays false and the editor is untouched, yet the
text file `out.s` is written with the editor text. -/
theorem rejected_save_dialog_still_writes :
    sampleWindow.m_hasSavedFile = false ∧
    rejectedDialog.execResult = QDialog.Rejected ∧
    (sampleWindow.saveFilesTriggered rejectedDialog).saveDialogsShown = 1 ∧
    (sampleWindow.saveFilesTriggered rejectedDialog).m_hasSavedFile = false ∧
    (sampleWindow.saveFilesTriggered rejectedDialog).editTab = sampleWindow.editTab ∧
    sampleWindow.writes = [] ∧
    (sampleWindow.saveFilesTriggered rejectedDialog).writes =
      [Effect.fileWritten "out.s" (FileData.text "nop")] ∧
    sampleWindow.files "out.s" = none ∧
    (sampleWindow.saveFilesTriggered rejectedDialog).files "out.s" =
      some (FileData.text "nop") := by
  decide

/-- C7, refuted as stated: from the sample window the user accepts the save dialog
with both paths empty; no file is written, and still `m_hasSavedFile` is true. -/
theorem save_flag_without_write_counterexample :
    sampleWindow.m_hasSavedFile = false ∧
    (sampleWindow.saveFilesTriggered acceptedEmptyDialog).writes = sampleWindow.writes ∧
    (sampleWindow.saveFilesTriggered acceptedEmptyDialog).files "" = sampleWindow.files "" ∧
    ¬ ((sampleWindow.saveFilesTriggered acceptedEmptyDialog).m_hasSavedFile = true ↔
        (sampleWindow.saveFilesTriggered acceptedEmptyDialog).writes ≠ sampleWindow.writes) := by
  decide

/-- C7, amended: entered with `m_hasSavedFile` false, `saveFilesTriggered` leaves the
flag true exactly when the save dialog returned a non-zero result (was accepted),
whatever paths it reports and whether or not a file could be opened. -/
theorem save_flag_iff_dialog_accepted (diag : SaveDialog) (w : MainWindow)
    (h : w.m_hasSavedFile = false) :
    (w.saveFilesTriggered diag).m_hasSavedFile = true ↔ diag.execResult ≠ QDialog.Rejected := by
  rw [(saveFilesTriggered_spec diag w).2.1, h]
  simp [QDialog.Rejected]

/-- The accepted dialog with two empty paths sets the flag on the sample window. -/
theorem save_flag_iff_dialog_accepted_witness :
    sampleWindow.m_hasSavedFile = false ∧
    ((sampleWindow.saveFilesTriggered acceptedEmptyDialog).m_hasSavedFile = true ↔
      acceptedEmptyDialog.execResult ≠ QDialog.Rejected) :=
  ⟨by decide, save_flag_iff_dialog_accepted acceptedEmptyDialog sampleWindow (by decide)⟩

/-- C8, refuted as stated: after an accepted save the flag is true, and the handlers
of `editorStateChanged` leave it false. -/
theorem editorStateChanged_drops_location_counterexample :
    (sampleWindow.saveFilesTriggered acceptedDialog).m_hasSavedFile = true ∧
    ((sampleWindow.saveFilesTriggered acceptedDialog).editorStateChanged true).m_hasSavedFile
      = false := by
  decide

/-- C8, amended: for every session state and either argument of the signal, after the
`editorStateChanged` handlers ran `m_hasSavedFile` is false (no location stays no
location, a persisted location is dropped), the two save actions are enabled as the
signal says, and nothing else changes. -/
theorem editorStateChanged_clears_location (enabled : Bool) (w : MainWindow) :
    (w.editorStateChanged enabled).m_hasSavedFile = false ∧
    (w.editorStateChanged enabled) =
      { w with saveActionEnabled := enabled, saveAsActionEnabled := enabled,
               m_hasSavedFile := false } := by
  exact ⟨rfl, rfl⟩

/-- C9: in `saveFilesTriggered` the write section sees the dialog object `shown`
(the executed one when the dialog ran, the fresh one otherwise).  The text file at
its assembly path is written, with exactly the editor text, if and only if that
path is non-empty and the file opens; the binary file at its binary path is
written, with exactly the editor binary data, if and only if that path is
non-empty, the data is present and the file opens.  Neither condition mentions
the other path, nothing else is written, an absent path or absent data only
skips that artifact, and no file at any other path changes. -/
theorem save_writes_artifacts_independently (diag : SaveDialog) (w : MainWindow) :
    ∃ (shown : SaveDialog) (textW binW : List Effect),
      shown = (if w.m_hasSavedFile = true then diag else diag.exec.2) ∧
      (w.saveFilesTriggered diag).writes = w.writes ++ textW ++ binW ∧
      textW = (if shown.assemblyPath.isEmpty = false ∧ w.canOpen shown.assemblyPath = true
        then [Effect.fileWritten shown.assemblyPath (FileData.text w.editTab.assemblyText)]
        else []) ∧
      binW = (match w.editTab.binaryData with
        | some program =>
          if shown.binaryPath.isEmpty = false ∧ w.canOpen shown.binaryPath = true
          then [Effect.fileWritten shown.binaryPath (FileData.binary program)] else []
        | none => []) ∧
      (∀ program, w.editTab.binaryData = some program → shown.binaryPath.isEmpty = false →
        w.canOpen shown.binaryPath = true →
        (w.saveFilesTriggered diag).files shown.binaryPath =
          some (FileData.binary program)) ∧
      (shown.assemblyPath.isEmpty = false → w.canOpen shown.assemblyPath = true →
        (shown.assemblyPath ≠ shown.binaryPath ∨ binW = []) →
        (w.saveFilesTriggered diag).files shown.assemblyPath =
          some (FileData.text w.editTab.assemblyText)) ∧
      (∀ path, path ≠ shown.assemblyPath → path ≠ shown.binaryPath →
        (w.saveFilesTriggered diag).files path = w.files path) ∧
      (textW = [] → binW = [] → (w.saveFilesTriggered diag).files = w.files) := by
  obtain ⟨_, _, p3, p4, p5, p6, _, _⟩ := saveFilesPrompt_spec diag w
  obtain ⟨_, _, _, _, _, _, q7⟩ :=
    saveFilesWrite_spec (w.saveFilesPrompt diag).2 (w.saveFilesPrompt diag).1
  obtain ⟨f1, f2, f3⟩ :=
    saveFilesWrite_files (w.saveFilesPrompt diag).2 (w.saveFilesPrompt diag).1
  have ht : (w.saveFilesPrompt diag).1.textWrites (w.saveFilesPrompt diag).2 =
      w.textWrites (w.saveFilesPrompt diag).2 := by
    simp only [MainWindow.textWrites, p4, p6]
  have hb : (w.saveFilesPrompt diag).1.binaryWrites (w.saveFilesPrompt diag).2 =
      w.binaryWrites (w.saveFilesPrompt diag).2 := by
    simp only [MainWindow.binaryWrites, p4, p6]
  rw [ht, hb] at f3
  rw [hb] at f2
  rw [p4] at f1 f2
  rw [p6] at f1 f2
  rw [p5] at f3 q7
  refine ⟨(w.saveFilesPrompt diag).2, w.textWrites (w.saveFilesPrompt diag).2,
    w.binaryWrites (w.saveFilesPrompt diag).2, ?_, saveFilesTriggered_writes diag w, ?_, ?_,
    f1, f2, q7, f3⟩
  · exact p3
  · unfold MainWindow.textWrites EditTab.getAssemblyText
    cases (w.saveFilesPrompt diag).2.assemblyPath.isEmpty <;>
      cases w.canOpen (w.saveFilesPrompt diag).2.assemblyPath <;> simp
  · unfold MainWindow.binaryWrites EditTab.getBinaryData
    cases w.editTab.binaryData <;> cases (w.saveFilesPrompt diag).2.binaryPath.isEmpty <;>
      cases w.canOpen (w.saveFilesPrompt diag).2.binaryPath <;> simp

/-- The first save of the sample window, with both paths entered. -/
theorem save_writes_artifacts_independently_witness :
    (sampleWindow.saveFilesTriggered acceptedDialog).files "out.s" =
      some (FileData.text "nop") ∧
    (sampleWindow.saveFilesTriggered acceptedDialog).files "out.bin" =
      some (FileData.binary [0x13, 0, 0, 0]) := by
  obtain ⟨shown, textW, binW, hs, _, _, _, hbin, htext, _, _⟩ :=
    save_writes_artifacts_independently acceptedDialog sampleWindow
  subst hs
  exact ⟨htext (by decide) (by decide) (Or.inl (by decide)),
    hbin [0x13, 0, 0, 0] (by decide) (by decide) (by decide)⟩

/-- C10: `saveFilesAsTriggered` executes exactly one save dialog in every state.  If
that dialog is rejected nothing is written and `m_hasSavedFile` keeps its value;
otherwise `m_hasSavedFile` is true afterwards and what follows is
`saveFilesTriggered` entered with the flag true, that is its write section alone on
the inner dialog object, with no second prompt. -/
theorem saveFilesAs_prompts_exactly_once (diag inner : SaveDialog) (w : MainWindow) :
    (w.saveFilesAsTriggered diag inner).saveDialogsShown = w.saveDialogsShown + 1 ∧
    (diag.execResult = QDialog.Rejected →
      w.saveFilesAsTriggered diag inner =
        { w with trace := w.trace ++ [Effect.saveDialogExec] } ∧
      (w.saveFilesAsTriggered diag inner).writes = w.writes ∧
      (w.saveFilesAsTriggered diag inner).files = w.files ∧
      (w.saveFilesAsTriggered diag inner).m_hasSavedFile = w.m_hasSavedFile) ∧
    (diag.execResult ≠ QDialog.Rejected →
      (w.saveFilesAsTriggered diag inner).m_hasSavedFile = true ∧
      w.saveFilesAsTriggered diag inner =
        MainWindow.saveFilesTriggered inner
          { w with trace := w.trace ++ [Effect.saveDialogExec], m_hasSavedFile := true } ∧
      w.saveFilesAsTriggered diag inner =
        MainWindow.saveFilesWrite inner
          { w with trace := w.trace ++ [Effect.saveDialogExec], m_hasSavedFile := true } ∧
      (w.saveFilesAsTriggered diag inner).writes =
        w.writes ++ w.textWrites inner ++ w.binaryWrites inner) := by
  have hcount : ∀ f : Bool, MainWindow.saveDialogsShown
      { w with trace := w.trace ++ [Effect.saveDialogExec], m_hasSavedFile := f } =
      w.saveDialogsShown + 1 := by
    intro f
    simp [MainWindow.saveDialogsShown, List.count_append]
  have hwr : ∀ f : Bool, MainWindow.writes
      { w with trace := w.trace ++ [Effect.saveDialogExec], m_hasSavedFile := f } =
      w.writes := by
    intro f
    simp [MainWindow.writes, List.filter_append, Effect.isWrite]
  by_cases hr : diag.execResult = QDialog.Rejected
  · have he : w.saveFilesAsTriggered diag inner =
        { w with trace := w.trace ++ [Effect.saveDialogExec] } := by
      simp [MainWindow.saveFilesAsTriggered, SaveDialog.exec, hr]
    refine ⟨?_, fun _ => ⟨he, ?_, ?_, ?_⟩, fun h => absurd hr h⟩
    · rw [he]; exact hcount w.m_hasSavedFile
    · rw [he]; exact hwr w.m_hasSavedFile
    · rw [he]
    · rw [he]
  · have he : w.saveFilesAsTriggered diag inner =
        MainWindow.saveFilesTriggered inner
          { w with trace := w.trace ++ [Effect.saveDialogExec], m_hasSavedFile := true } := by
      simp [MainWindow.saveFilesAsTriggered, SaveDialog.exec, hr]
    obtain ⟨s1, s2, s3⟩ := saveFilesTriggered_silent inner
      { w with trace := w.trace ++ [Effect.saveDialogExec], m_hasSavedFile := true } rfl
    refine ⟨?_, fun h => absurd h hr, fun _ => ⟨?_, he, ?_, ?_⟩⟩
    · rw [he, s3]; exact hcount true
    · rw [he]; exact s2
    · rw [he]; exact s1
    · rw [he, saveFilesTriggered_writes, hwr true]
      simp [MainWindow.saveFilesPrompt, MainWindow.textWrites, MainWindow.binaryWrites]

/-- Save As on the sample window: rejected once, accepted once. -/
theorem saveFilesAs_prompts_exactly_once_witness :
    (sampleWindow.saveFilesAsTriggered rejectedDialog silentDialog).writes =
      sampleWindow.writes ∧
    (sampleWindow.saveFilesAsTriggered acceptedDialog silentDialog).m_hasSavedFile = true :=
  ⟨((saveFilesAs_prompts_exactly_once rejectedDialog silentDialog sampleWindow).2.1
      (by decide)).2.1,
   ((saveFilesAs_prompts_exactly_once acceptedDialog silentDialog sampleWindow).2.2
      (by decide)).1⟩

/-- C2: whenever `closeEvent` shows its prompt (editor enabled, assembly text not
empty) and the answer is Cancel, the event is ignored and the window is exactly as
before apart from the record of that one message box: no save dialog, no file
write, no shutdown notification, and the same current tab, toolbars, tabs,
`m_hasSavedFile`, editor content and files. -/
theorem closeEvent_cancel_rolls_back (diag : SaveDialog) (event : QCloseEvent)
    (w : MainWindow)
    (h : w.editTab.isEditorEnabled = true ∧ w.editTab.getAssemblyText.isEmpty = false) :
    (w.closeEvent StandardButton.Cancel diag event).2.accepted = false ∧
    (w.closeEvent StandardButton.Cancel diag event).1 =
      { w with trace := w.trace ++ [Effect.messageBoxExec] } ∧
    (w.closeEvent StandardButton.Cancel diag event).1.promptsShown = w.promptsShown + 1 ∧
    (w.closeEvent StandardButton.Cancel diag event).1.saveDialogsShown = w.saveDialogsShown ∧
    (w.closeEvent StandardButton.Cancel diag event).1.writes = w.writes ∧
    (w.closeEvent StandardButton.Cancel diag event).1.quitSignals = w.quitSignals ∧
    (w.closeEvent StandardButton.Cancel diag event).1.files = w.files ∧
    (w.closeEvent StandardButton.Cancel diag event).1.m_currentTabID = w.m_currentTabID ∧
    (w.closeEvent StandardButton.Cancel diag event).1.m_tabWidgets = w.m_tabWidgets ∧
    (w.closeEvent StandardButton.Cancel diag event).1.m_hasSavedFile = w.m_hasSavedFile ∧
    (w.closeEvent StandardButton.Cancel diag event).1.editTab = w.editTab := by
  have he : w.closeEvent StandardButton.Cancel diag event =
      ({ w with trace := w.trace ++ [Effect.messageBoxExec] }, event.ignore) := by
    simp [MainWindow.closeEvent, h.1, h.2]
  rw [he]
  simp [QCloseEvent.ignore, MainWindow.promptsShown, MainWindow.saveDialogsShown,
    MainWindow.writes, MainWindow.quitSignals, List.count_append, List.filter_append,
    Effect.isWrite]

/-- Cancelling the close prompt of the sample window, with the event accepted on entry. -/
theorem closeEvent_cancel_rolls_back_witness :
    (sampleWindow.editTab.isEditorEnabled = true ∧
      sampleWindow.editTab.getAssemblyText.isEmpty = false) ∧
    (sampleWindow.closeEvent StandardButton.Cancel acceptedDialog
      { accepted := true }).2.accepted = false ∧
    (sampleWindow.closeEvent StandardButton.Cancel acceptedDialog
      { accepted := true }).1.quitSignals = sampleWindow.quitSignals :=
  have h := closeEvent_cancel_rolls_back acceptedDialog { accepted := true } sampleWindow
    (by decide)
  ⟨by decide, h.1, h.2.2.2.2.2.1⟩

/-- C3: evaluation at the failing input.  The sample window has a non-empty program
and no persisted location; the close prompt is answered Yes and the nested save
dialog is rejected.  The save ends with `m_hasSavedFile` false and nothing written,
and the close completes all the same: the shutdown notification is emitted and
the event is accepted, whether it arrived accepted or not. -/
theorem closeEvent_completes_after_rejected_save :
    (sampleWindow.editTab.isEditorEnabled = true ∧
      sampleWindow.editTab.getAssemblyText.isEmpty = false) ∧
    sampleWindow.m_hasSavedFile = false ∧
    rejectedEmptyDialog.execResult = QDialog.Rejected ∧
    (sampleWindow.closeEvent StandardButton.Yes rejectedEmptyDialog
      { accepted := false }).1.m_hasSavedFile = false ∧
    (sampleWindow.closeEvent StandardButton.Yes rejectedEmptyDialog
      { accepted := false }).1.writes = [] ∧
    (sampleWindow.closeEvent StandardButton.Yes rejectedEmptyDialog
      { accepted := false }).1.quitSignals = 1 ∧
    (sampleWindow.closeEvent StandardButton.Yes rejectedEmptyDialog
      { accepted := false }).2.accepted = true ∧
    (sampleWindow.closeEvent StandardButton.Yes rejectedEmptyDialog
      { accepted := true }).2.accepted = true := by
  decide

/-- C4: when `newProgramTriggered` shows its prompt (text not empty or
`m_hasSavedFile` true), `EditTab::newProgram` is called, once, if and only if the
answer is No, or the answer is Yes and the nested save ends with `m_hasSavedFile`
true; in that case the flag is false afterwards and the editor is the cleared
one.  On Cancel, or on Yes with the save ending with the flag false,
`newProgram` is not called and the editor and the flag are as before.  When the
text is empty and the flag false, no message box and no save dialog is shown and
the new document is created. -/
theorem newProgram_proceeds_iff_not_aborted (answer : StandardButton) (diag : SaveDialog)
    (w : MainWindow) :
    ((!w.editTab.getAssemblyText.isEmpty || w.m_hasSavedFile) = true →
      (w.newProgramTriggered answer diag).promptsShown = w.promptsShown + 1 ∧
      ((w.newProgramTriggered answer diag).newProgramCalls = w.newProgramCalls + 1 ↔
        (answer = StandardButton.No ∨
          (answer = StandardButton.Yes ∧
            (MainWindow.saveFilesTriggered diag
              { w with trace := w.trace ++ [Effect.messageBoxExec] }).m_hasSavedFile = true))) ∧
      ((answer = StandardButton.No ∨
          (answer = StandardButton.Yes ∧
            (MainWindow.saveFilesTriggered diag
              { w with trace := w.trace ++ [Effect.messageBoxExec] }).m_hasSavedFile = true)) →
        (w.newProgramTriggered answer diag).m_hasSavedFile = false ∧
        (w.newProgramTriggered answer diag).editTab = w.editTab.newProgram ∧
        (w.newProgramTriggered answer diag).editTab.getAssemblyText = "") ∧
      ((answer = StandardButton.Cancel ∨
          (answer = StandardButton.Yes ∧
            (MainWindow.saveFilesTriggered diag
              { w with trace := w.trace ++ [Effect.messageBoxExec] }).m_hasSavedFile = false)) →
        (w.newProgramTriggered answer diag).newProgramCalls = w.newProgramCalls ∧
        (w.newProgramTriggered answer diag).editTab = w.editTab ∧
        (w.newProgramTriggered answer diag).m_hasSavedFile = w.m_hasSavedFile)) ∧
    ((!w.editTab.getAssemblyText.isEmpty || w.m_hasSavedFile) = false →
      (w.newProgramTriggered answer diag).promptsShown = w.promptsShown ∧
      (w.newProgramTriggered answer diag).saveDialogsShown = w.saveDialogsShown ∧
      (w.newProgramTriggered answer diag).writes = w.writes ∧
      (w.newProgramTriggered answer diag).newProgramCalls = w.newProgramCalls + 1 ∧
      (w.newProgramTriggered answer diag).m_hasSavedFile = false ∧
      (w.newProgramTriggered answer diag).editTab = w.editTab.newProgram ∧
      (w.newProgramTriggered answer diag).editTab.getAssemblyText = "") := by
  obtain ⟨_, s2, s3, _⟩ := saveFilesTriggered_spec diag
    { w with trace := w.trace ++ [Effect.messageBoxExec] }
  obtain ⟨_, c2, c3, _⟩ := saveFilesTriggered_counts diag
    { w with trace := w.trace ++ [Effect.messageBoxExec] }
  have hp : MainWindow.promptsShown { w with trace := w.trace ++ [Effect.messageBoxExec] } =
      w.promptsShown + 1 := by
    simp [MainWindow.promptsShown, List.count_append]
  have hn : MainWindow.newProgramCalls { w with trace := w.trace ++ [Effect.messageBoxExec] } =
      w.newProgramCalls := by
    simp [MainWindow.newProgramCalls, List.count_append]
  rw [hp] at c2
  rw [hn] at c3
  constructor
  · intro hprompt
    cases answer with
    | No =>
      have he : w.newProgramTriggered StandardButton.No diag =
          { w with m_hasSavedFile := false, editTab := w.editTab.newProgram,
                   trace := w.trace ++ [Effect.messageBoxExec] ++ [Effect.newProgram] } := by
        unfold MainWindow.newProgramTriggered
        rw [if_pos hprompt]
      rw [he]
      simp [MainWindow.promptsShown, MainWindow.newProgramCalls, List.count_append,
        EditTab.newProgram, EditTab.getAssemblyText]
    | Cancel =>
      have he : w.newProgramTriggered StandardButton.Cancel diag =
          { w with trace := w.trace ++ [Effect.messageBoxExec] } := by
        unfold MainWindow.newProgramTriggered
        rw [if_pos hprompt]
      rw [he]
      simp [MainWindow.promptsShown, MainWindow.newProgramCalls, List.count_append]
    | Yes =>
      cases hs : (MainWindow.saveFilesTriggered diag
          { w with trace := w.trace ++ [Effect.messageBoxExec] }).m_hasSavedFile with
      | false =>
        have he : w.newProgramTriggered StandardButton.Yes diag =
            MainWindow.saveFilesTriggered diag
              { w with trace := w.trace ++ [Effect.messageBoxExec] } := by
          unfold MainWindow.newProgramTriggered
          rw [if_pos hprompt]
          simp only [hs, Bool.not_false, if_true]
        have hw : w.m_hasSavedFile = false := by
          rw [s2] at hs
          simp at hs
          exact hs.1
        rw [he]
        refine ⟨c2, ?_, ?_, ?_⟩
        · rw [c3]; simp
        · intro h; simp at h
        · intro _; exact ⟨c3, s3, by rw [hs, hw]⟩
      | true =>
        have he : w.newProgramTriggered StandardButton.Yes diag =
            { MainWindow.saveFilesTriggered diag
                { w with trace := w.trace ++ [Effect.messageBoxExec] } with
              m_hasSavedFile := false
              editTab := (MainWindow.saveFilesTriggered diag
                { w with trace := w.trace ++ [Effect.messageBoxExec] }).editTab.newProgram
              trace := (MainWindow.saveFilesTriggered diag
                { w with trace := w.trace ++ [Effect.messageBoxExec] }).trace ++
                  [Effect.newProgram] } := by
          unfold MainWindow.newProgramTriggered
          rw [if_pos hprompt]
          simp only [hs, Bool.not_true]
          rfl
        rw [he, s3]
        simp only [MainWindow.promptsShown, MainWindow.newProgramCalls] at c2 c3 ⊢
        simp [List.count_append, c2, c3, EditTab.newProgram, EditTab.getAssemblyText]
  · intro hprompt
    have hneg : ¬ ((!w.editTab.getAssemblyText.isEmpty || w.m_hasSavedFile) = true) := by
      rw [hprompt]; simp
    have he : w.newProgramTriggered answer diag =
        { w with m_hasSavedFile := false, editTab := w.editTab.newProgram,
                 trace := w.trace ++ [Effect.newProgram] } := by
      unfold MainWindow.newProgramTriggered
      rw [if_neg hneg]
    rw [he]
    simp [MainWindow.promptsShown, MainWindow.saveDialogsShown, MainWindow.writes,
      MainWindow.newProgramCalls, List.count_append, List.filter_append, Effect.isWrite,
      EditTab.newProgram, EditTab.getAssemblyText]

/-- New Program on the sample window: discarded with No, and aborted with Cancel. -/
theorem newProgram_proceeds_iff_not_aborted_witness :
    (sampleWindow.newProgramTriggered StandardButton.No acceptedDialog).editTab.getAssemblyText
      = "" ∧
    (sampleWindow.newProgramTriggered StandardButton.Cancel acceptedDialog).editTab =
      sampleWindow.editTab :=
  ⟨(((newProgram_proceeds_iff_not_aborted StandardButton.No acceptedDialog sampleWindow).1
      (by decide)).2.2.1 (Or.inl rfl)).2.2,
   (((newProgram_proceeds_iff_not_aborted StandardButton.Cancel acceptedDialog sampleWindow).1
      (by decide)).2.2.2 (Or.inl rfl)).2.1⟩

end Ripes